import Mathlib

/-!
Verification of the CleanFlux JavaScript SDK (src/index.js).

The SDK is a thin HTTP client: a constructor that validates the API key and
normalizes the base URL, a shared request routine used by the five capability
methods (clean, normalize, extractUrls, removeProfanity, metadata), and an
unauthenticated ping.  We embed it shallowly:

* JSON values are the inductive `Json`; JavaScript truthiness, optional
  property access and template-literal string coercion are translated from
  their ECMAScript semantics restricted to `Json` values (numbers are
  modelled as integers; no claim depends on float arithmetic).
* `fetch` is abstracted as a `transport : Request → HttpResponse` supplied by
  the environment.  The `Request` record carries the URL, method, headers and
  the JSON value serialized to the wire by JSON.stringify; the wire body is
  kept structurally, which is faithful because JSON serialization of a `Json`
  value preserves its structure.
* `response.json().catch(fun _ => null)` yields `HttpResponse.body : Option Json`,
  with `none` standing for an unparsable body (JavaScript `null`).
* Thrown errors become explicit outcome constructors carrying the message
  string, the status and the attached response value.
-/

/-- A JSON value, the shape of request payloads and response bodies.
Object fields are kept in order; keys are assumed distinct, as produced by
JSON.parse and by object literals. -/
inductive Json where
  | null
  | bool (b : Bool)
  | num (n : Int)
  | str (s : String)
  | arr (elems : List Json)
  | obj (fields : List (String × Json))
deriving Repr

/-- Association-list lookup used for JavaScript property access on an object. -/
def lookupField : List (String × Json) → String → Option Json
  | [], _ => none
  | (k, v) :: rest, key => if k = key then some v else lookupField rest key

/-- JavaScript property access `data?.k` restricted to `Json` values: reading a
property of a non-object (or a missing property) gives undefined, modelled as
`none`. -/
def Json.getField : Json → String → Option Json
  | .obj fields, key => lookupField fields key
  | _, _ => none

/-- JavaScript truthiness of a `Json` value: null, false, 0 and the empty
string are falsy, everything else (arrays and objects included) is truthy. -/
def jsTruthy : Json → Bool
  | .null => false
  | .bool b => b
  | .num n => n != 0
  | .str s => s != ""
  | .arr _ => true
  | .obj _ => true

mutual

/-- Template-literal coercion of a `Json` value to a string, following
ECMAScript ToString: strings are themselves, numbers print in decimal,
booleans print as true and false, null prints as null, arrays join their
elements with commas (null elements print as the empty string), and plain
objects print as [object Object]. -/
def jsToString : Json → String
  | .null => "null"
  | .bool b => cond b "true" "false"
  | .num n => toString n
  | .str s => s
  | .arr elems => jsArrToString elems
  | .obj _ => "[object Object]"

/-- Array.prototype.toString: the elements coerced and joined with commas. -/
def jsArrToString : List Json → String
  | [] => ""
  | [Json.null] => ""
  | [j] => jsToString j
  | Json.null :: rest => "," ++ jsArrToString rest
  | j :: rest => jsToString j ++ "," ++ jsArrToString rest

end

/-- Boolean test that `pat` occurs as a prefix of `l`. -/
def listStartsWith : List Char → List Char → Bool
  | [], _ => true
  | _ :: _, [] => false
  | a :: as, b :: bs => a == b && listStartsWith as bs

/-- Boolean test that `pat` occurs as a contiguous sublist of `hay`. -/
def listContainsSub (hay pat : List Char) : Bool :=
  if listStartsWith pat hay then true
  else
    match hay with
    | [] => false
    | _ :: t => listContainsSub t pat

/-- Substring test on strings, used to state which diagnostic a thrown error
message carries. -/
def strContains (s pat : String) : Bool :=
  listContainsSub s.data pat.data

/-- A JavaScript argument value as passed for the apiKey parameter: it may be
absent (undefined), null, or a value of any primitive-or-object type.  Only
truthiness and being a string matter to the constructor. -/
inductive JsArg where
  | undefined
  | null
  | bool (b : Bool)
  | num (n : Int)
  | str (s : String)
  | obj
deriving Repr, DecidableEq

/-- JavaScript truthiness of an argument value: undefined, null, false, 0 and
the empty string are falsy. -/
def JsArg.truthy : JsArg → Bool
  | .undefined => false
  | .null => false
  | .bool b => b
  | .num n => n != 0
  | .str s => s != ""
  | .obj => true

/-- The validated, normalized client configuration held by a constructed
client: this.apiKey and this.baseUrl. -/
structure ClientConfig where
  apiKey : String
  baseUrl : String
deriving Repr, DecidableEq

/-- Removal of one trailing slash character from a character list: the list
semantics of the regex replacement replace(/\/$/, ''), which rewrites a
single slash at the end of the string and nothing else. -/
def dropLastSlash : List Char → List Char
  | [] => []
  | [c] => if c == '/' then [] else [c]
  | c :: rest => c :: dropLastSlash rest

/-- The base-URL normalization performed in the constructor:
this.baseUrl.replace(/\/$/, ''). -/
def stripTrailingSlash (s : String) : String :=
  ⟨dropLastSlash s.data⟩

/-- The default production base URL. -/
def defaultBaseUrl : String := "https://api.cleanflux.ai"

namespace CleanFlux

/-- The CleanFlux constructor.  It throws when apiKey is falsy (message
"CleanFlux: API key is required. ..."), then when apiKey is not a string
(message "CleanFlux: API key must be a string"); otherwise it stores the key
and the base URL options.baseUrl || defaultBaseUrl with one trailing slash
stripped.  The optional baseUrl is modelled as an optional string (`none`
when the option is absent); a thrown error is the `Except.error` carrying the
message. -/
def construct (apiKey : JsArg) (baseUrl? : Option String) : Except String ClientConfig :=
  if apiKey.truthy = false then
    .error "CleanFlux: API key is required. Get yours at https://cleanflux.ai/dashboard"
  else
    match apiKey with
    | .str s =>
        .ok ⟨s, stripTrailingSlash
          (match baseUrl? with
           | some u => if u = "" then defaultBaseUrl else u
           | none => defaultBaseUrl)⟩
    | _ => .error "CleanFlux: API key must be a string"

end CleanFlux

/-- An HTTP request as handed to fetch: URL, method, header list in order, and
the JSON value serialized as the body by JSON.stringify (`none` when fetch is
called without a body). -/
structure Request where
  url : String
  method : String
  headers : List (String × String)
  body : Option Json
deriving Repr

/-- An HTTP response as observed by the client: the status code, and the
result of response.json() — `some` parsed value, or `none` when the body is
not valid JSON. -/
structure HttpResponse where
  status : Nat
  body : Option Json
deriving Repr

/-- The outcome of the shared request routine: the parsed body on success, or
the thrown error carrying its message, the attached status and the attached
response value (JavaScript null, i.e. `Json.null`, when the body was
unparsable). -/
inductive RequestOutcome where
  | success (data : Json)
  | apiError (message : String) (status : Nat) (response : Json)
deriving Repr

/-- The generic fallback error message for a status code. -/
def fallbackMessage (status : Nat) : String :=
  "Request failed with status " ++ toString status

/-- JavaScript `a || b` on an optional value: keep `a` when it is present and
truthy, otherwise take `b`. -/
def jsOrElse (a b : Option Json) : Option Json :=
  match a with
  | some v => if jsTruthy v then some v else b
  | none => b

/-- The message selection data?.error || data?.message || fallback performed
on a non-ok response (`data` is the parsed body, `Json.null` when
unparsable): the error field when present and truthy, else the message field
when present and truthy, else the generic fallback, with non-string field
values coerced by the template literal. -/
def selectMessage (data : Json) (status : Nat) : String :=
  match jsOrElse (data.getField "error") (data.getField "message") with
  | some v => if jsTruthy v then jsToString v else fallbackMessage status
  | none => fallbackMessage status

namespace CleanFlux

/-- The request built by the shared routine _request: POST to
baseUrl + /api/ + endpoint with the x-api-key, Content-Type and User-Agent
headers and the payload as JSON body. -/
def buildRequest (cfg : ClientConfig) (endpoint : String) (payload : Json) : Request :=
  ⟨cfg.baseUrl ++ "/api/" ++ endpoint,
   "POST",
   [("x-api-key", cfg.apiKey),
    ("Content-Type", "application/json"),
    ("User-Agent", "cleanflux-js/1.0.0")],
   some payload⟩

/-- The response handling of _request: data is the parsed body or null; a
status in 200..299 (response.ok) resolves to data, any other status throws
an error whose message is "CleanFlux API Error: " followed by the selected
message, with the status and data attached. -/
def handleResponse (resp : HttpResponse) : RequestOutcome :=
  let data : Json := resp.body.getD Json.null
  if 200 ≤ resp.status ∧ resp.status ≤ 299 then
    .success data
  else
    .apiError ("CleanFlux API Error: " ++ selectMessage data resp.status)
      resp.status data

/-- The shared routine _request: build the request, hand it to the transport
(fetch), and classify the response. -/
def request (cfg : ClientConfig) (endpoint : String) (payload : Json)
    (transport : Request → HttpResponse) : RequestOutcome :=
  handleResponse (transport (buildRequest cfg endpoint payload))

/-- Capability method clean: delegation to _request with endpoint clean. -/
def clean (cfg : ClientConfig) (payload : Json)
    (transport : Request → HttpResponse) : RequestOutcome :=
  request cfg "clean" payload transport

/-- Capability method normalize: delegation to _request with endpoint
normalize. -/
def normalize (cfg : ClientConfig) (payload : Json)
    (transport : Request → HttpResponse) : RequestOutcome :=
  request cfg "normalize" payload transport

/-- Capability method extractUrls: delegation to _request with endpoint
extract-urls. -/
def extractUrls (cfg : ClientConfig) (payload : Json)
    (transport : Request → HttpResponse) : RequestOutcome :=
  request cfg "extract-urls" payload transport

/-- Capability method removeProfanity: delegation to _request with endpoint
remove-profanity. -/
def removeProfanity (cfg : ClientConfig) (payload : Json)
    (transport : Request → HttpResponse) : RequestOutcome :=
  request cfg "remove-profanity" payload transport

/-- Capability method metadata: delegation to _request with endpoint
metadata. -/
def metadata (cfg : ClientConfig) (payload : Json)
    (transport : Request → HttpResponse) : RequestOutcome :=
  request cfg "metadata" payload transport

/-- The request built by ping: GET to baseUrl + /api/ping with only the
User-Agent header and no body. -/
def pingRequest (cfg : ClientConfig) : Request :=
  ⟨cfg.baseUrl ++ "/api/ping", "GET", [("User-Agent", "cleanflux-js/1.0.0")], none⟩

/-- The outcome of ping: the parsed body of the response, whatever its
status; response.json() has no catch here, so an unparsable body propagates
as a raw JSON parse error. -/
inductive PingOutcome where
  | ok (body : Json)
  | jsonParseError
deriving Repr

/-- The ping method: issue the unauthenticated GET and return response.json()
directly, with no status classification. -/
def ping (cfg : ClientConfig) (transport : Request → HttpResponse) : PingOutcome :=
  match (transport (pingRequest cfg)).body with
  | some j => .ok j
  | none => .jsonParseError

end CleanFlux

/-- Follows the words of claim C1 only, not the source: the message selection
by field presence — the error field of the parsed body if present, else the
message field if present, else the generic fallback.  Stated for comparison
with `selectMessage`, the selection the code actually performs with the
JavaScript or-operator, which skips present but falsy fields. -/
def claimedSelectMessage (data : Json) (status : Nat) : String :=
  match data.getField "error" with
  | some v => jsToString v
  | none =>
    match data.getField "message" with
    | some v => jsToString v
    | none => fallbackMessage status

theorem dropLastSlash_append_slash (l : List Char) :
    dropLastSlash (l ++ ['/']) = l := by
  induction l with
  | nil => rfl
  | cons c t ih =>
    cases t with
    | nil => rfl
    | cons c2 t2 =>
      have h1 : dropLastSlash ((c :: c2 :: t2) ++ ['/'])
          = c :: dropLastSlash ((c2 :: t2) ++ ['/']) := rfl
      rw [h1, ih]

theorem dropLastSlash_of_getLast (l : List Char) (h : l.getLast? ≠ some '/') :
    dropLastSlash l = l := by
  induction l with
  | nil => rfl
  | cons c t ih =>
    cases t with
    | nil =>
      have hc : c ≠ '/' := by simpa using h
      simp [dropLastSlash, hc]
    | cons c2 t2 =>
      have h2 : (c2 :: t2).getLast? ≠ some '/' := by
        simpa [List.getLast?_cons_cons] using h
      have h1 : dropLastSlash (c :: c2 :: t2) = c :: dropLastSlash (c2 :: t2) := rfl
      rw [h1, ih h2]

theorem stripTrailingSlash_append_slash (s : String) :
    stripTrailingSlash (s ++ "/") = s := by
  apply String.ext
  show dropLastSlash ((s ++ "/").data) = s.data
  have h : (s ++ "/").data = s.data ++ ['/'] := rfl
  rw [h, dropLastSlash_append_slash]

theorem stripTrailingSlash_of_no_slash (s : String) (h : s.data.getLast? ≠ some '/') :
    stripTrailingSlash s = s := by
  apply String.ext
  show dropLastSlash s.data = s.data
  exact dropLastSlash_of_getLast s.data h

theorem append_slash_ne_empty (s : String) : s ++ "/" ≠ "" := by
  intro hc
  have h2 : s.data ++ ['/'] = [] := congrArg String.data hc
  simp at h2

theorem selectMessage_error_truthy (d : Json) (st : Nat) (v : Json)
    (h : d.getField "error" = some v) (hv : jsTruthy v = true) :
    selectMessage d st = jsToString v := by
  simp [selectMessage, jsOrElse, h, hv]

theorem selectMessage_message_truthy (d : Json) (st : Nat) (w : Json)
    (he : ∀ v, d.getField "error" = some v → jsTruthy v = false)
    (h : d.getField "message" = some w) (hw : jsTruthy w = true) :
    selectMessage d st = jsToString w := by
  cases herr : d.getField "error" with
  | none => simp [selectMessage, jsOrElse, herr, h, hw]
  | some v =>
    have hv := he v herr
    simp [selectMessage, jsOrElse, herr, hv, h, hw]

theorem selectMessage_fallback (d : Json) (st : Nat)
    (he : ∀ v, d.getField "error" = some v → jsTruthy v = false)
    (hm : ∀ w, d.getField "message" = some w → jsTruthy w = false) :
    selectMessage d st = fallbackMessage st := by
  cases herr : d.getField "error" with
  | none =>
    cases hmsg : d.getField "message" with
    | none => simp [selectMessage, jsOrElse, herr, hmsg]
    | some w => simp [selectMessage, jsOrElse, herr, hmsg, hm w hmsg]
  | some v =>
    cases hmsg : d.getField "message" with
    | none => simp [selectMessage, jsOrElse, herr, hmsg, he v herr]
    | some w => simp [selectMessage, jsOrElse, herr, hmsg, he v herr, hm w hmsg]

theorem request_eq_ite (cfg : ClientConfig) (ep : String) (payload : Json)
    (resp : HttpResponse) :
    CleanFlux.request cfg ep payload (fun _ => resp) =
      if 200 ≤ resp.status ∧ resp.status ≤ 299 then
        RequestOutcome.success (resp.body.getD Json.null)
      else
        RequestOutcome.apiError
          ("CleanFlux API Error: " ++ selectMessage (resp.body.getD Json.null) resp.status)
          resp.status (resp.body.getD Json.null) := rfl

theorem string_append_assoc (a b c : String) : a ++ b ++ c = a ++ (b ++ c) := by
  apply String.ext
  show a.data ++ b.data ++ c.data = a.data ++ (b.data ++ c.data)
  exact List.append_assoc a.data b.data c.data

/-- C4: for every call to a capability method (all of which delegate to the
shared routine `CleanFlux.request`), a response whose status lies in 200..299
resolves to the parsed JSON body verbatim, whatever shape that body has. -/
theorem request_success_passthrough (cfg : ClientConfig) (ep : String)
    (payload : Json) (resp : HttpResponse) (j : Json)
    (h200 : 200 ≤ resp.status) (h299 : resp.status ≤ 299)
    (hb : resp.body = some j) :
    CleanFlux.request cfg ep payload (fun _ => resp) = RequestOutcome.success j := by
  rw [request_eq_ite, if_pos (And.intro h200 h299), hb]
  rfl

/-- Witness for C4 at the spec scenario: a 200 response with body
cleaned = hi resolves to exactly that object. -/
theorem request_success_passthrough_witness :
    CleanFlux.request ⟨"sk_live_test", "https://x.test"⟩ "clean"
        (Json.obj [("text", Json.str "hi")])
        (fun _ => ⟨200, some (Json.obj [("cleaned", Json.str "hi")])⟩) =
      RequestOutcome.success (Json.obj [("cleaned", Json.str "hi")]) :=
  request_success_passthrough ⟨"sk_live_test", "https://x.test"⟩ "clean"
    (Json.obj [("text", Json.str "hi")])
    ⟨200, some (Json.obj [("cleaned", Json.str "hi")])⟩
    (Json.obj [("cleaned", Json.str "hi")]) (by decide) (by decide) rfl

/-- C9: a capability-method call whose response has a 2xx status but an
unparsable body resolves successfully to null instead of raising. -/
theorem request_success_unparsable_null (cfg : ClientConfig) (ep : String)
    (payload : Json) (resp : HttpResponse)
    (h200 : 200 ≤ resp.status) (h299 : resp.status ≤ 299)
    (hb : resp.body = none) :
    CleanFlux.request cfg ep payload (fun _ => resp)
      = RequestOutcome.success Json.null := by
  rw [request_eq_ite, if_pos (And.intro h200 h299), hb]
  rfl

/-- Witness for C9: a 204 response with an unparsable body resolves to
null. -/
theorem request_success_unparsable_null_witness :
    CleanFlux.request ⟨"sk_live_test", "https://x.test"⟩ "normalize"
        (Json.obj [("text", Json.str "hi")]) (fun _ => ⟨204, none⟩) =
      RequestOutcome.success Json.null :=
  request_success_unparsable_null ⟨"sk_live_test", "https://x.test"⟩ "normalize"
    (Json.obj [("text", Json.str "hi")]) ⟨204, none⟩ (by decide) (by decide) rfl

/-- C7: when the response body cannot be parsed as JSON the parsed body is
treated as null rather than raising, and the status classification still
runs: a 2xx status resolves to null, any other status raises the error with
the generic fallback message, status and null response attached. -/
theorem request_unparsable_body_fallback (cfg : ClientConfig) (ep : String)
    (payload : Json) (resp : HttpResponse) (hb : resp.body = none) :
    CleanFlux.request cfg ep payload (fun _ => resp) =
      if 200 ≤ resp.status ∧ resp.status ≤ 299 then
        RequestOutcome.success Json.null
      else
        RequestOutcome.apiError
          ("CleanFlux API Error: " ++ fallbackMessage resp.status)
          resp.status Json.null := by
  rw [request_eq_ite, hb]
  rfl

/-- Witness for C7 at the spec scenario: a 503 response with an unparsable
body raises with the generic fallback message for status 503. -/
theorem request_unparsable_body_fallback_witness :
    CleanFlux.request ⟨"sk_live_test", "https://x.test"⟩ "clean"
        (Json.obj [("text", Json.str "hi")]) (fun _ => ⟨503, none⟩) =
      RequestOutcome.apiError "CleanFlux API Error: Request failed with status 503"
        503 Json.null := by
  have h := request_unparsable_body_fallback ⟨"sk_live_test", "https://x.test"⟩
    "clean" (Json.obj [("text", Json.str "hi")]) ⟨503, none⟩ rfl
  rw [h, if_neg (by decide)]
  rfl

/-- C1 counterexample: the claim selects the error field whenever it is
present, but the code uses the JavaScript or-operator, which skips a present
but falsy field.  For a 400 response whose body is the object with error
equal to the empty string and message equal to oops, the error field is
present, yet the raised error carries the message-field text oops, not the
message the presence-based selection of the claim would produce. -/
theorem request_error_presence_claim_false :
    CleanFlux.request ⟨"sk_live_test", "https://x.test"⟩ "clean"
        (Json.obj [("text", Json.str "hi")])
        (fun _ => ⟨400, some (Json.obj [("error", Json.str ""), ("message", Json.str "oops")])⟩) =
      RequestOutcome.apiError "CleanFlux API Error: oops" 400
        (Json.obj [("error", Json.str ""), ("message", Json.str "oops")]) ∧
    (Json.obj [("error", Json.str ""), ("message", Json.str "oops")]).getField "error"
      = some (Json.str "") ∧
    claimedSelectMessage (Json.obj [("error", Json.str ""), ("message", Json.str "oops")]) 400
      = "" ∧
    "CleanFlux API Error: oops" ≠
      "CleanFlux API Error: " ++
        claimedSelectMessage (Json.obj [("error", Json.str ""), ("message", Json.str "oops")]) 400 :=
  ⟨rfl, rfl, rfl, by decide⟩

/-- C1 (amended): for every capability-method call through the shared routine,
a response status outside 200..299 raises the error carrying the status code
and the full parsed body (null when unparsable), with the message chosen by
priority among the truthy fields: the error field when present and truthy,
else the message field when present and truthy, else the generic fallback for
the status; the thrown message carries the CleanFlux API Error prefix. -/
theorem request_error_classification (cfg : ClientConfig) (ep : String)
    (payload : Json) (resp : HttpResponse)
    (hst : ¬(200 ≤ resp.status ∧ resp.status ≤ 299)) :
    CleanFlux.request cfg ep payload (fun _ => resp) =
      RequestOutcome.apiError
        ("CleanFlux API Error: " ++ selectMessage (resp.body.getD Json.null) resp.status)
        resp.status (resp.body.getD Json.null) ∧
    (∀ v, (resp.body.getD Json.null).getField "error" = some v → jsTruthy v = true →
        selectMessage (resp.body.getD Json.null) resp.status = jsToString v) ∧
    (∀ w, (∀ v, (resp.body.getD Json.null).getField "error" = some v → jsTruthy v = false) →
        (resp.body.getD Json.null).getField "message" = some w → jsTruthy w = true →
        selectMessage (resp.body.getD Json.null) resp.status = jsToString w) ∧
    ((∀ v, (resp.body.getD Json.null).getField "error" = some v → jsTruthy v = false) →
        (∀ w, (resp.body.getD Json.null).getField "message" = some w → jsTruthy w = false) →
        selectMessage (resp.body.getD Json.null) resp.status = fallbackMessage resp.status) := by
  refine ⟨?_, ?_, ?_, ?_⟩
  · rw [request_eq_ite, if_neg hst]
  · intro v h hv
    exact selectMessage_error_truthy _ _ v h hv
  · intro w he h hw
    exact selectMessage_message_truthy _ _ w he h hw
  · intro he hm
    exact selectMessage_fallback _ _ he hm

/-- Witness for C1 at the spec scenario: a 400 response whose body has a
truthy error field bad text raises with that message, status 400 and the
body attached. -/
theorem request_error_classification_witness :
    CleanFlux.request ⟨"sk_live_test", "https://x.test"⟩ "clean"
        (Json.obj [("text", Json.str "hi")])
        (fun _ => ⟨400, some (Json.obj [("error", Json.str "bad text")])⟩) =
      RequestOutcome.apiError "CleanFlux API Error: bad text" 400
        (Json.obj [("error", Json.str "bad text")]) := by
  have h := request_error_classification ⟨"sk_live_test", "https://x.test"⟩ "clean"
    (Json.obj [("text", Json.str "hi")])
    ⟨400, some (Json.obj [("error", Json.str "bad text")])⟩ (by decide)
  have hm := h.2.1 (Json.str "bad text") rfl rfl
  rw [h.1, hm]
  rfl

/-- C3: ping issues a GET to baseUrl + /api/ping carrying only the User-Agent
header — no API-key header and no body — and returns the parsed JSON body
directly for every response status, with none of the status classification of
the shared routine (an unparsable body propagates as a raw parse error, never
as the classified API error). -/
theorem ping_unauthenticated_passthrough (cfg : ClientConfig) :
    CleanFlux.pingRequest cfg =
      ⟨cfg.baseUrl ++ "/api/ping", "GET", [("User-Agent", "cleanflux-js/1.0.0")], none⟩ ∧
    (∀ (resp : HttpResponse) (j : Json), resp.body = some j →
      CleanFlux.ping cfg (fun _ => resp) = CleanFlux.PingOutcome.ok j) ∧
    (∀ resp : HttpResponse, resp.body = none →
      CleanFlux.ping cfg (fun _ => resp) = CleanFlux.PingOutcome.jsonParseError) := by
  refine ⟨rfl, ?_, ?_⟩
  · intro resp j h
    simp [CleanFlux.ping, h]
  · intro resp h
    simp [CleanFlux.ping, h]

/-- Witness for C3: against a 500 response with a parsable body, ping still
resolves to that body rather than raising. -/
theorem ping_unauthenticated_passthrough_witness :
    CleanFlux.ping ⟨"sk_live_test", "https://x.test"⟩
        (fun _ => ⟨500, some (Json.obj [("status", Json.str "ok")])⟩) =
      CleanFlux.PingOutcome.ok (Json.obj [("status", Json.str "ok")]) :=
  (ping_unauthenticated_passthrough ⟨"sk_live_test", "https://x.test"⟩).2.1
    ⟨500, some (Json.obj [("status", Json.str "ok")])⟩
    (Json.obj [("status", Json.str "ok")]) rfl

/-- C5: each capability method delegates to the shared routine with its fixed
endpoint, so the request it hands to the transport targets baseUrl + /api/ +
its fixed path — clean, normalize, extract-urls, remove-profanity, metadata —
and in particular removeProfanity targets /api/remove-profanity, which
differs from /api/removeProfanity. -/
theorem capability_routing (cfg : ClientConfig) (payload : Json)
    (transport : Request → HttpResponse) :
    (CleanFlux.clean cfg payload transport
        = CleanFlux.handleResponse (transport (CleanFlux.buildRequest cfg "clean" payload)) ∧
      (CleanFlux.buildRequest cfg "clean" payload).url = cfg.baseUrl ++ "/api/clean") ∧
    (CleanFlux.normalize cfg payload transport
        = CleanFlux.handleResponse (transport (CleanFlux.buildRequest cfg "normalize" payload)) ∧
      (CleanFlux.buildRequest cfg "normalize" payload).url = cfg.baseUrl ++ "/api/normalize") ∧
    (CleanFlux.extractUrls cfg payload transport
        = CleanFlux.handleResponse (transport (CleanFlux.buildRequest cfg "extract-urls" payload)) ∧
      (CleanFlux.buildRequest cfg "extract-urls" payload).url
        = cfg.baseUrl ++ "/api/extract-urls") ∧
    (CleanFlux.removeProfanity cfg payload transport
        = CleanFlux.handleResponse (transport (CleanFlux.buildRequest cfg "remove-profanity" payload)) ∧
      (CleanFlux.buildRequest cfg "remove-profanity" payload).url
        = cfg.baseUrl ++ "/api/remove-profanity") ∧
    (CleanFlux.metadata cfg payload transport
        = CleanFlux.handleResponse (transport (CleanFlux.buildRequest cfg "metadata" payload)) ∧
      (CleanFlux.buildRequest cfg "metadata" payload).url
        = cfg.baseUrl ++ "/api/metadata") ∧
    (CleanFlux.buildRequest cfg "remove-profanity" payload).url
      ≠ cfg.baseUrl ++ "/api/removeProfanity" := by
  refine ⟨⟨rfl, ?_⟩, ⟨rfl, ?_⟩, ⟨rfl, ?_⟩, ⟨rfl, ?_⟩, ⟨rfl, ?_⟩, ?_⟩
  · rw [show (CleanFlux.buildRequest cfg "clean" payload).url
      = cfg.baseUrl ++ "/api/" ++ "clean" by rfl, string_append_assoc]
    rfl
  · rw [show (CleanFlux.buildRequest cfg "normalize" payload).url
      = cfg.baseUrl ++ "/api/" ++ "normalize" by rfl, string_append_assoc]
    rfl
  · rw [show (CleanFlux.buildRequest cfg "extract-urls" payload).url
      = cfg.baseUrl ++ "/api/" ++ "extract-urls" by rfl, string_append_assoc]
    rfl
  · rw [show (CleanFlux.buildRequest cfg "remove-profanity" payload).url
      = cfg.baseUrl ++ "/api/" ++ "remove-profanity" by rfl, string_append_assoc]
    rfl
  · rw [show (CleanFlux.buildRequest cfg "metadata" payload).url
      = cfg.baseUrl ++ "/api/" ++ "metadata" by rfl, string_append_assoc]
    rfl
  · intro hc
    have h0 := congrArg String.data hc
    have h1 : cfg.baseUrl.data ++ (("/api/").data ++ ("remove-profanity").data)
        = cfg.baseUrl.data ++ ("/api/removeProfanity").data := by
      rw [← List.append_assoc]
      exact h0
    have h2 := List.append_cancel_left h1
    exact absurd h2 (by decide)

/-- C2 counterexample: the number 0 is a non-string key, yet the constructor
rejects it with the API-key-required message, because the falsiness check
runs before the type check; the claim says a non-string key produces the
must-be-a-string message. -/
theorem construct_falsy_nonstring_message :
    CleanFlux.construct (JsArg.num 0) none =
      Except.error "CleanFlux: API key is required. Get yours at https://cleanflux.ai/dashboard" ∧
    strContains "CleanFlux: API key is required. Get yours at https://cleanflux.ai/dashboard"
      "API key must be a string" = false :=
  ⟨rfl, by decide⟩

/-- C2 (amended): a falsy key (absent, null, false, 0 or the empty string)
fails with the error whose message carries API key is required; a truthy
non-string key fails with the error whose message carries API key must be a
string; any non-empty string key succeeds.  Both messages carry the CleanFlux
prefix of the source. -/
theorem construct_key_validation (key : JsArg) (b : Option String) :
    (key.truthy = false →
      CleanFlux.construct key b =
        Except.error "CleanFlux: API key is required. Get yours at https://cleanflux.ai/dashboard") ∧
    (key.truthy = true → (∀ s, key ≠ JsArg.str s) →
      CleanFlux.construct key b = Except.error "CleanFlux: API key must be a string") ∧
    (∀ s, s ≠ "" → key = JsArg.str s →
      ∃ cfg, CleanFlux.construct key b = Except.ok cfg ∧ cfg.apiKey = s) ∧
    strContains "CleanFlux: API key is required. Get yours at https://cleanflux.ai/dashboard"
      "API key is required" = true ∧
    strContains "CleanFlux: API key must be a string" "API key must be a string" = true := by
  refine ⟨?_, ?_, ?_, by decide, by decide⟩
  · intro h
    simp [CleanFlux.construct, h]
  · intro h hns
    cases key with
    | str s => exact absurd rfl (hns s)
    | undefined => simp [JsArg.truthy] at h
    | null => simp [JsArg.truthy] at h
    | bool v => simp [CleanFlux.construct, h]
    | num n => simp [CleanFlux.construct, h]
    | obj => simp [CleanFlux.construct, h]
  · intro s hs hk
    subst hk
    have ht : (JsArg.str s).truthy = true := by simp [JsArg.truthy, hs]
    refine ⟨⟨s, stripTrailingSlash
      (match b with
       | some u => if u = "" then defaultBaseUrl else u
       | none => defaultBaseUrl)⟩, ?_, rfl⟩
    simp [CleanFlux.construct, ht]

/-- Witness for C2: the string key sk_live_test is accepted, the absent key
is rejected with the required message, and the truthy non-string key 5 is
rejected with the must-be-a-string message. -/
theorem construct_key_validation_witness :
    (∃ cfg, CleanFlux.construct (JsArg.str "sk_live_test") none = Except.ok cfg ∧
      cfg.apiKey = "sk_live_test") ∧
    CleanFlux.construct JsArg.undefined none =
      Except.error "CleanFlux: API key is required. Get yours at https://cleanflux.ai/dashboard" ∧
    CleanFlux.construct (JsArg.num 5) none =
      Except.error "CleanFlux: API key must be a string" :=
  ⟨(construct_key_validation (JsArg.str "sk_live_test") none).2.2.1 "sk_live_test"
      (by decide) rfl,
   (construct_key_validation JsArg.undefined none).1 rfl,
   (construct_key_validation (JsArg.num 5) none).2.1 (by decide)
      (fun s h => JsArg.noConfusion h)⟩

/-- C6: the constructor strips a trailing slash exactly once and not
recursively — a base URL ending in a single slash loses that slash, one
without a trailing slash is stored unchanged, one ending in two slashes
loses only one — and a client constructed with a slash-terminated base URL
stores the slash-free base, so the later concatenation with /api/ starts
from a slash-free base. -/
theorem baseUrl_trailing_slash_once (s : String) :
    stripTrailingSlash (s ++ "/") = s ∧
    (s.data.getLast? ≠ some '/' → stripTrailingSlash s = s) ∧
    stripTrailingSlash (s ++ "//") = s ++ "/" ∧
    (∀ k : String, k ≠ "" →
      CleanFlux.construct (JsArg.str k) (some (s ++ "/")) = Except.ok ⟨k, s⟩) := by
  refine ⟨stripTrailingSlash_append_slash s, stripTrailingSlash_of_no_slash s, ?_, ?_⟩
  · apply String.ext
    show dropLastSlash ((s ++ "//").data) = (s ++ "/").data
    have h1 : (s ++ "//").data = s.data ++ ['/', '/'] := rfl
    have h2 : s.data ++ ['/', '/'] = (s.data ++ ['/']) ++ ['/'] := by
      rw [List.append_assoc]
      rfl
    rw [h1, h2, dropLastSlash_append_slash]
    rfl
  · intro k hk
    have ht : (JsArg.str k).truthy = true := by simp [JsArg.truthy, hk]
    have hne : ¬(s ++ "/" = "") := append_slash_ne_empty s
    simp [CleanFlux.construct, ht, hne, stripTrailingSlash_append_slash]

/-- Witness for C6: the base URL of the spec scenario loses its trailing
slash, a slash-free base URL is unchanged, and a constructed client stores
the slash-free base. -/
theorem baseUrl_trailing_slash_once_witness :
    stripTrailingSlash ("https://x.test" ++ "/") = "https://x.test" ∧
    stripTrailingSlash "https://x.test" = "https://x.test" ∧
    CleanFlux.construct (JsArg.str "sk_live_test") (some ("https://x.test" ++ "/")) =
      Except.ok ⟨"sk_live_test", "https://x.test"⟩ :=
  ⟨(baseUrl_trailing_slash_once "https://x.test").1,
   (baseUrl_trailing_slash_once "https://x.test").2.1 (by decide),
   (baseUrl_trailing_slash_once "https://x.test").2.2.2 "sk_live_test" (by decide)⟩

/-- C8: the body of the request built by the shared routine — and so the
JSON value serialized onto the wire for every capability-method call — is
the caller payload itself, with nothing added, renamed, dropped, transformed
or defaulted, alongside the fixed method and headers of the source. -/
theorem request_payload_fidelity (cfg : ClientConfig) (ep : String) (payload : Json) :
    (CleanFlux.buildRequest cfg ep payload).body = some payload ∧
    (CleanFlux.buildRequest cfg ep payload).method = "POST" ∧
    (CleanFlux.buildRequest cfg ep payload).headers =
      [("x-api-key", cfg.apiKey), ("Content-Type", "application/json"),
       ("User-Agent", "cleanflux-js/1.0.0")] :=
  ⟨rfl, rfl, rfl⟩

/-- C10: a provided but empty options.baseUrl is falsy, so the constructor
silently falls back to the default production URL, exactly as when the
option is absent. -/
theorem construct_empty_baseUrl_default (k : String) (hk : k ≠ "") :
    CleanFlux.construct (JsArg.str k) (some "") = Except.ok ⟨k, defaultBaseUrl⟩ ∧
    CleanFlux.construct (JsArg.str k) none = Except.ok ⟨k, defaultBaseUrl⟩ := by
  have ht : (JsArg.str k).truthy = true := by simp [JsArg.truthy, hk]
  have hd : stripTrailingSlash defaultBaseUrl = defaultBaseUrl := by decide
  constructor
  · simp [CleanFlux.construct, ht, hd]
  · simp [CleanFlux.construct, ht, hd]

/-- Witness for C10: with the key sk_live_test and an empty base URL option,
the constructed client uses the default production URL. -/
theorem construct_empty_baseUrl_default_witness :
    CleanFlux.construct (JsArg.str "sk_live_test") (some "") =
      Except.ok ⟨"sk_live_test", defaultBaseUrl⟩ :=
  (construct_empty_baseUrl_default "sk_live_test" (by decide)).1
